import Mathlib

/-!
Verification of the TutorAI lecture-RAG backend core.

Shallow embedding of the Python sources under `backend/app`:
  * `services/timestamp_service.py` — transcript timestamp parsing and
    time-string conversion,
  * `services/transcription.py` — the serialized transcript line format,
  * `services/langgraph_workflows.py` — the QA, multi-lecture-search and
    summarization workflow nodes,
  * `services/rag.py` — the non-workflow QA fallback's citation loop,
  * `services/multi_lecture_search.py` — pooled multi-lecture search,
  * `api/routes/lectures.py` — `generate_chunked_summary`.

Strings are modelled as `List Char`; Python `float` values are modelled as
the exact rationals they denote, with IEEE-754 binary64 rounding
(`f64round`, round-to-nearest-even at 53 significant bits, unbounded
exponent — all values arising in the modelled code are normal and far from
overflow) applied at each arithmetic operation that rounds in Python.
External backends (the Qdrant vector store, the Ollama LLM) are modelled
as oracle parameters; nodes that call a backend additionally return a
`Bool` recording whether the backend call site was reached.
-/

namespace TutorAI

/-! ### Python string primitives -/

/-- Python whitespace as stripped by `str.strip()` (ASCII subset; the
transcripts handled by the code are ASCII-newline separated). -/
def isPySpace (c : Char) : Bool :=
  c = ' ' || c = '\t' || c = '\n' || c = '\r' || c = '\x0b' || c = '\x0c'

/-- Python `str.strip()`: drop whitespace from both ends. -/
def pystrip (l : List Char) : List Char :=
  ((l.dropWhile isPySpace).reverse.dropWhile isPySpace).reverse

/-- Python `str.split(sep)` for a one-character separator: every occurrence
splits, empty pieces are kept, `"".split(sep) == [""]`. -/
def splitOnChar (sep : Char) : List Char → List (List Char)
  | [] => [[]]
  | c :: cs =>
    match splitOnChar sep cs with
    | [] => [[]]
    | r :: rs => if c = sep then [] :: r :: rs else (c :: r) :: rs

/-- Python substring test `needle in hay`. -/
def listContains (hay needle : List Char) : Bool :=
  if needle.isPrefixOf hay then true
  else
    match hay with
    | [] => false
    | _ :: t => listContains t needle

/-- Python `"\n\n".join(...)`-style join with a separator list. -/
def joinSep (sep : List Char) : List (List Char) → List Char
  | [] => []
  | [x] => x
  | x :: y :: rest => x ++ sep ++ joinSep sep (y :: rest)

/-- Python `int(...)` on a string of decimal digits (the only inputs the
modelled code feeds it, guaranteed by the regex digit classes). -/
def parseNatDigits (l : List Char) : ℕ :=
  l.foldl (fun acc c => acc * 10 + (c.toNat - '0'.toNat)) 0

/-- Fuel-bounded digit expansion: one digit for `n < 10`, otherwise the
digits of `n / 10` followed by the last digit. `n + 1` units of fuel
always suffice. -/
def natDecDigitsAux : ℕ → ℕ → List Char
  | 0, _ => []
  | fuel + 1, n =>
    if n < 10 then [Char.ofNat (48 + n)]
    else natDecDigitsAux fuel (n / 10) ++ [Char.ofNat (48 + n % 10)]

/-- Decimal digit characters of a natural number, most significant first
(the digits of Python's `str(n)` / `f"{n}"` for `n ≥ 0`). -/
def natDecDigits (n : ℕ) : List Char := natDecDigitsAux (n + 1) n

/-- Left-pad with `0` to width two (the padding rule of `f"{z:02d}"`). -/
def padTwo (s : List Char) : List Char :=
  if s.length < 2 then '0' :: s else s

/-- Python `f"{z:02d}"`: decimal digits (with `-` sign when negative),
left-padded with `0` to width two. -/
def fmt02d (z : ℤ) : List Char :=
  padTwo (if z < 0 then '-' :: natDecDigits z.natAbs else natDecDigits z.natAbs)

/-- Truthiness of Python's `Optional[str]` fields: `None` and `""` are
falsy (`if not state.transcript: ...`). -/
def optFalsy : Option (List Char) → Bool
  | none => true
  | some [] => true
  | some (_ :: _) => false

/-- Python `range(start, stop, step)` for a positive step. -/
def pyrange (start stop step : ℕ) : List ℕ :=
  (List.range ((stop - start + step - 1) / step)).map (fun k => start + k * step)

/-! ### Kernel-computable rational arithmetic

The standard `ℚ` operations of the library are `@[irreducible]`, which
blocks `decide`-style evaluation. The model therefore routes every
rational computation through the following `Rat.divInt`-based helpers;
the `q*_eq`/`q*_iff` lemmas below prove each helper equal to the standard
operation, so the embedding computes exactly the usual rational
arithmetic. -/

/-- Addition on `ℚ` (computable form). -/
def qadd (a b : ℚ) : ℚ := Rat.divInt (a.num * b.den + b.num * a.den) (a.den * b.den)

/-- Subtraction on `ℚ` (computable form). -/
def qsub (a b : ℚ) : ℚ := Rat.divInt (a.num * b.den - b.num * a.den) (a.den * b.den)

/-- Multiplication on `ℚ` (computable form). -/
def qmul (a b : ℚ) : ℚ := Rat.divInt (a.num * b.num) (a.den * b.den)

/-- Division on `ℚ` (computable form). -/
def qdiv (a b : ℚ) : ℚ := Rat.divInt (a.num * b.den) (a.den * b.num)

/-- The `≤` test on `ℚ` (computable form). -/
def qleB (a b : ℚ) : Bool := a.num * b.den ≤ b.num * a.den

/-- The `<` test on `ℚ` (computable form). -/
def qltB (a b : ℚ) : Bool := a.num * b.den < b.num * a.den

/-- The embedding of an integer into `ℚ` (computable form). -/
def qofInt (n : ℤ) : ℚ := Rat.divInt n 1

/-- Negation on `ℚ` (computable form). -/
def qneg (a : ℚ) : ℚ := Rat.divInt (-a.num) a.den

/-- Absolute value on `ℚ` (computable form). -/
def qabs (a : ℚ) : ℚ := Rat.divInt (a.num.natAbs : ℤ) (a.den : ℤ)

theorem qadd_eq (a b : ℚ) : qadd a b = a + b := by
  rw [qadd, Rat.divInt_eq_div]
  conv_rhs => rw [← Rat.num_div_den a, ← Rat.num_div_den b]
  have ha : (a.den : ℚ) ≠ 0 := by positivity
  have hb : (b.den : ℚ) ≠ 0 := by positivity
  field_simp

theorem qsub_eq (a b : ℚ) : qsub a b = a - b := by
  rw [qsub, Rat.divInt_eq_div]
  conv_rhs => rw [← Rat.num_div_den a, ← Rat.num_div_den b]
  have ha : (a.den : ℚ) ≠ 0 := by positivity
  have hb : (b.den : ℚ) ≠ 0 := by positivity
  field_simp
  try ring

theorem qmul_eq (a b : ℚ) : qmul a b = a * b := by
  rw [qmul, Rat.divInt_eq_div]
  conv_rhs => rw [← Rat.num_div_den a, ← Rat.num_div_den b]
  have ha : (a.den : ℚ) ≠ 0 := by positivity
  have hb : (b.den : ℚ) ≠ 0 := by positivity
  field_simp

theorem qdiv_eq (a b : ℚ) : qdiv a b = a / b := by
  rcases eq_or_ne b 0 with rfl | hb
  · simp [qdiv, Rat.divInt_eq_div]
  · rw [qdiv, Rat.divInt_eq_div]
    have hbn : (b.num : ℚ) ≠ 0 := by
      simpa using (Rat.num_ne_zero).mpr hb
    conv_rhs => rw [← Rat.num_div_den a, ← Rat.num_div_den b]
    have ha : (a.den : ℚ) ≠ 0 := by positivity
    have hb2 : (b.den : ℚ) ≠ 0 := by positivity
    field_simp
    try ring

theorem qleB_iff (a b : ℚ) : qleB a b = true ↔ a ≤ b := by
  rw [qleB, decide_eq_true_eq]
  rw [show (a ≤ b ↔ (a.num : ℚ) / a.den ≤ (b.num : ℚ) / b.den) by
    rw [Rat.num_div_den, Rat.num_div_den]]
  rw [div_le_div_iff₀ (by positivity) (by positivity)]
  exact_mod_cast Iff.rfl

theorem qltB_iff (a b : ℚ) : qltB a b = true ↔ a < b := by
  rw [qltB, decide_eq_true_eq]
  rw [show (a < b ↔ (a.num : ℚ) / a.den < (b.num : ℚ) / b.den) by
    rw [Rat.num_div_den, Rat.num_div_den]]
  rw [div_lt_div_iff₀ (by positivity) (by positivity)]
  exact_mod_cast Iff.rfl

theorem qofInt_eq (n : ℤ) : qofInt n = (n : ℚ) := by
  simp [qofInt, Rat.divInt_eq_div]

theorem qneg_eq (a : ℚ) : qneg a = -a := by
  rw [qneg, Rat.divInt_eq_div]
  conv_rhs => rw [← Rat.num_div_den a]
  push_cast
  ring

theorem qabs_eq (a : ℚ) : qabs a = |a| := by
  rcases le_or_lt 0 a with h | h
  · have hn : (0:ℤ) ≤ a.num := Rat.num_nonneg.mpr h
    rw [qabs, show ((a.num.natAbs : ℤ)) = a.num by omega, Rat.num_divInt_den, abs_of_nonneg h]
  · have hn : ¬ ((0:ℤ) ≤ a.num) := fun hc => absurd (Rat.num_nonneg.mp hc) (not_le.mpr h)
    rw [qabs, show ((a.num.natAbs : ℤ)) = -a.num by omega, ← Rat.neg_divInt, Rat.num_divInt_den,
      abs_of_neg h]

/-! ### IEEE-754 binary64 rounding, over exact rationals -/

/-- Python `int(x)` on a real value: truncation toward zero
(`⌊q⌋` for nonnegative `q`, `-⌊|q|⌋` otherwise). -/
def pytrunc (q : ℚ) : ℤ :=
  if 0 ≤ q.num then ⌊q⌋ else -⌊qabs q⌋

/-- Round to the nearest integer, ties to even: with `f = ⌊x⌋` and
`r = x - f`, round down when `r < 1/2`, up when `r > 1/2`, to the even
neighbour at a tie. -/
def roundHalfEven (x : ℚ) : ℤ :=
  let f := ⌊x⌋
  let r := qsub x (qofInt f)
  if qltB r (Rat.divInt 1 2) then f
  else if qltB (Rat.divInt 1 2) r then f + 1
  else if f % 2 = 0 then f else f + 1

/-- Halve `a` (incrementing the exponent) until `a < 2`. Fuel-bounded
structural recursion; 4096 steps cover every magnitude the model meets. -/
def normDown : ℕ → ℚ → ℤ → ℚ × ℤ
  | 0, a, e => (a, e)
  | fuel + 1, a, e =>
    if qleB (Rat.divInt 2 1) a then normDown fuel (qmul a (Rat.divInt 1 2)) (e + 1) else (a, e)

/-- Double `a` (decrementing the exponent) until `1 ≤ a`. -/
def normUp : ℕ → ℚ → ℤ → ℚ × ℤ
  | 0, a, e => (a, e)
  | fuel + 1, a, e =>
    if qltB a (Rat.divInt 1 1) then normUp fuel (qmul a (Rat.divInt 2 1)) (e - 1) else (a, e)

/-- `2 ^ k : ℚ` for an integer exponent (computable form). -/
def qpow2 (k : ℤ) : ℚ :=
  if 0 ≤ k then Rat.divInt ((2 ^ k.toNat : ℕ) : ℤ) 1 else Rat.divInt 1 ((2 ^ (-k).toNat : ℕ) : ℤ)

/-- Round an exact rational to the nearest IEEE-754 binary64 value
(53 significant bits, round-to-nearest-even, unbounded exponent: the
modelled code never leaves the normal range). The result is the exact
rational the double denotes: with `|q| = a · 2^e`, `1 ≤ a < 2`, it is
`± roundHalfEven(a · 2^52) · 2^(e-52)`. -/
def f64round (q : ℚ) : ℚ :=
  if q.num = 0 then Rat.divInt 0 1
  else
    let p := normDown 4096 (qabs q) 0
    let p2 := normUp 4096 p.1 p.2
    let mag := qmul (qofInt (roundHalfEven (qmul p2.1 (Rat.divInt ((2 ^ 52 : ℕ) : ℤ) 1))))
      (qpow2 (p2.2 - 52))
    if q.num < 0 then qneg mag else mag

/-- Binary64 addition: exact sum, then rounding. -/
def f64add (a b : ℚ) : ℚ := f64round (qadd a b)

/-- Binary64 subtraction: exact difference, then rounding. -/
def f64sub (a b : ℚ) : ℚ := f64round (qsub a b)

/-- Binary64 multiplication: exact product, then rounding. -/
def f64mul (a b : ℚ) : ℚ := f64round (qmul a b)

/-- Binary64 division: exact quotient, then rounding. -/
def f64div (a b : ℚ) : ℚ := f64round (qdiv a b)

/-- Python float `a % b` for `b > 0`: `fmod` is exact for doubles, so the
result is the exact remainder `a - b * ⌊a / b⌋`. -/
def pyfmod (a b : ℚ) : ℚ := qsub a (qmul b (qofInt ⌊qdiv a b⌋))

/-- Python float `a // b` for `b > 0`: the floor of the quotient (its
integral value is exactly representable at the magnitudes the code
handles, so no rounding step is modelled). -/
def pyfloordiv (a b : ℚ) : ℚ := qofInt ⌊qdiv a b⌋

/-! ### `services/timestamp_service.py` -/

/-- `TimestampSegment` (timestamp_service.py lines 5-11). `start_time` and
`end_time` hold the exact value of the Python float. -/
structure TimestampSegment where
  start_time : ℚ
  end_time : ℚ
  text : List Char
  start_str : List Char
  end_str : List Char
deriving DecidableEq

/-- `time_to_seconds` (timestamp_service.py lines 38-47): split on `:`,
then on `.`, parse the fields, and compute
`hours*3600 + minutes*60 + seconds + milliseconds/100`. The integer
arithmetic is exact in Python; the division by 100 and the final addition
of the float quotient to the integer round in binary64. -/
def time_to_seconds (time_str : List Char) : ℚ :=
  let parts := splitOnChar ':' time_str
  let hours := parseNatDigits (parts.getD 0 [])
  let minutes := parseNatDigits (parts.getD 1 [])
  let seconds_parts := splitOnChar '.' (parts.getD 2 [])
  let seconds := parseNatDigits (seconds_parts.getD 0 [])
  let milliseconds := if seconds_parts.length > 1 then parseNatDigits (seconds_parts.getD 1 []) else 0
  f64add (qofInt ((hours * 3600 + minutes * 60 + seconds : ℕ) : ℤ))
    (f64div (qofInt (milliseconds : ℤ)) (qofInt 100))

/-- `seconds_to_time` (timestamp_service.py lines 49-57). `seconds` is the
exact value of the Python float argument. -/
def seconds_to_time (seconds : ℚ) : List Char :=
  let hours := pytrunc (pyfloordiv seconds (qofInt 3600))
  let minutes := pytrunc (pyfloordiv (pyfmod seconds (qofInt 3600)) (qofInt 60))
  let secs := pyfmod seconds (qofInt 60)
  let whole_seconds := pytrunc secs
  let milliseconds := pytrunc (f64mul (f64sub secs (qofInt whole_seconds)) (qofInt 100))
  fmt02d hours ++ ':' :: fmt02d minutes ++ ':' :: fmt02d whole_seconds ++ '.' :: fmt02d milliseconds

/-- The fixed-shape time pattern `\d{2}:\d{2}:\d{2}\.\d{2}` (11 chars). -/
def isTimePattern (l : List Char) : Bool :=
  match l with
  | [a, b, c, d, e, f, g, h, i, j, k] =>
    a.isDigit && b.isDigit && c = ':' && d.isDigit && e.isDigit && f = ':' &&
    g.isDigit && h.isDigit && i = '.' && j.isDigit && k.isDigit
  | _ => false

/-- `re.match` of the pattern
`\[(\d{2}:\d{2}:\d{2}\.\d{2}) - (\d{2}:\d{2}:\d{2}\.\d{2})\] (.+)`
(timestamp_service.py line 20) against one line. The two time groups are
fixed-length, so the match is deterministic: `[`, 11 pattern chars,
`" - "`, 11 pattern chars, `"] "`, then at least one character. Returns
`(start_str, end_str, text)`. -/
def matchLine (line : List Char) : Option (List Char × List Char × List Char) :=
  match line with
  | '[' :: rest =>
    if isTimePattern (rest.take 11) then
      match rest.drop 11 with
      | ' ' :: '-' :: ' ' :: rest3 =>
        if isTimePattern (rest3.take 11) then
          match rest3.drop 11 with
          | ']' :: ' ' :: text => if text.isEmpty then none else some (rest.take 11, rest3.take 11, text)
          | _ => none
        else none
      | _ => none
    else none
  | _ => none

/-- The segment built for one matched line (timestamp_service.py
lines 24-34). -/
def segOfMatch (m : List Char × List Char × List Char) : TimestampSegment :=
  { start_time := time_to_seconds m.1
    end_time := time_to_seconds m.2.1
    text := m.2.2
    start_str := m.1
    end_str := m.2.1 }

/-- The `for line in lines` accumulation loop of
`parse_transcript_with_timestamps` (timestamp_service.py lines 18-34). -/
def parseLoop : List (List Char) → List TimestampSegment → List TimestampSegment
  | [], acc => acc
  | l :: ls, acc =>
    match matchLine l with
    | some m => parseLoop ls (acc ++ [segOfMatch m])
    | none => parseLoop ls acc

/-- `parse_transcript_with_timestamps` (timestamp_service.py lines 13-36):
strip the transcript, split it on newlines, and accumulate one segment per
line matching the timestamp pattern. -/
def parse_transcript_with_timestamps (transcript : List Char) : List TimestampSegment :=
  parseLoop (splitOnChar '\n' (pystrip transcript)) []

/-- `format_timestamp_for_video` (timestamp_service.py lines 86-97):
compact unpadded `{h}h{m}m{s}s` / `{m}m{s}s` / `{s}s` forms. `seconds` is
the exact value of the Python float argument. -/
def format_timestamp_for_video (seconds : ℚ) : List Char :=
  let hours := pytrunc (pyfloordiv seconds (qofInt 3600))
  let minutes := pytrunc (pyfloordiv (pyfmod seconds (qofInt 3600)) (qofInt 60))
  let secs := pytrunc (pyfmod seconds (qofInt 60))
  let digits := fun (z : ℤ) => if z < 0 then '-' :: natDecDigits z.natAbs else natDecDigits z.natAbs
  if hours > 0 then digits hours ++ 'h' :: digits minutes ++ 'm' :: digits secs ++ ['s']
  else if minutes > 0 then digits minutes ++ 'm' :: digits secs ++ ['s']
  else digits secs ++ ['s']

/-! ### `services/transcription.py` -/

/-- `format(x, '.2f')` of a nonnegative double, parametrized by the
already-rounded centisecond value `cs` (= `round(x * 100)` half-even):
decimal digits of the integer part, a dot, two zero-padded fractional
digits. Every line `transcribe` writes (transcription.py line 18) embeds
its two times in this plain-seconds shape. -/
def fmt2f (cs : ℕ) : List Char :=
  natDecDigits (cs / 100) ++ '.' :: fmt02d ((cs % 100 : ℕ) : ℤ)

/-- One serialized transcript line
`f"[{seg.start:.2f} - {seg.end:.2f}] {seg.text}"`
(transcription.py lines 16-19), with the times given in centiseconds. -/
def transcribeLine (startCs endCs : ℕ) (text : List Char) : List Char :=
  '[' :: fmt2f startCs ++ ' ' :: '-' :: ' ' :: fmt2f endCs ++ ']' :: ' ' :: text

/-! ### `services/langgraph_workflows.py` — state and backends -/

/-- A document returned by `qdrant_store.similarity_search`: its
`page_content` and the value `doc.metadata.get("score", 0.0)` evaluates to
(the retrieved score, or the `0.0` default). -/
structure Doc where
  page_content : List Char
  score : ℚ
deriving DecidableEq

/-- The source dict built by `extract_sources_node`
(langgraph_workflows.py lines 136-143) and by `ask_question`
(rag.py lines 53-60). -/
structure SourceCitation where
  text : List Char
  start_time : ℚ
  end_time : ℚ
  start_str : List Char
  end_str : List Char
  video_timestamp : List Char
deriving DecidableEq

/-- The result dict built by `search_lecture_node`
(langgraph_workflows.py lines 182-206) and by `search_multiple_lectures`
(multi_lecture_search.py lines 43-67). -/
structure SearchResult where
  lecture_id : List Char
  text : List Char
  start_time : ℚ
  end_time : ℚ
  start_str : List Char
  end_str : List Char
  video_timestamp : List Char
  relevance_score : ℚ
deriving DecidableEq

/-- `LectureProcessingState` (langgraph_workflows.py lines 13-22). The
`metadata` dict is omitted: no modelled node reads or writes it. -/
structure LectureProcessingState where
  lecture_id : List Char
  transcript : Option (List Char)
  question : Option (List Char)
  context_chunks : List (List Char)
  answer : Option (List Char)
  sources : List SourceCitation
  error : Option (List Char)
deriving DecidableEq

/-- `MultiLectureState` (langgraph_workflows.py lines 25-31). -/
structure MultiLectureState where
  query : List Char
  lecture_ids : List (List Char)
  results : List SearchResult
  consolidated_answer : Option (List Char)
  error : Option (List Char)
deriving DecidableEq

/-- The external backends: `qdrant_store.get_collection_info` (modelled by
whether it returns non-`None`), `qdrant_store.similarity_search`,
`load_transcript` (transcription.py lines 36-42), and
`get_llm().invoke`. -/
structure Backends where
  collectionExists : List Char → Bool
  similaritySearch : List Char → List Char → ℕ → List Doc
  loadTranscript : List Char → Option (List Char)
  llm : List Char → List Char

/-- `TOP_K` (config.py). -/
def TOP_K : ℕ := 4

/-- `f"lecture_{lecture_id}"`. -/
def collectionName (lid : List Char) : List Char := "lecture_".data ++ lid

/-! ### `services/langgraph_workflows.py` — QA workflow nodes -/

/-- The transcript-slicing fallback of `retrieve_relevant_chunks`
(langgraph_workflows.py line 73):
`[transcript[i:i+1000] for i in range(0, len(transcript), 2000)][:5]`. -/
def fallback_chunks (t : List Char) : List (List Char) :=
  ((pyrange 0 t.length 2000).map (fun i => (t.drop i).take 1000)).take 5

/-- `retrieve_relevant_chunks` (langgraph_workflows.py lines 59-88). The
`Bool` records whether `qdrant_store.similarity_search` was invoked. The
`try`/`except` wrapper is not modelled: every modelled operation is total,
so the `except` branch is unreachable in the model. -/
def retrieve_relevant_chunks (env : Backends) (state : LectureProcessingState) :
    LectureProcessingState × Bool :=
  if optFalsy state.question then
    ({ state with error := some "No question provided".data }, false)
  else if env.collectionExists (collectionName state.lecture_id) = false then
    if optFalsy state.transcript then (state, false)
    else ({ state with context_chunks := fallback_chunks (state.transcript.getD []) }, false)
  else
    let docs := env.similaritySearch (collectionName state.lecture_id) (state.question.getD []) TOP_K
    ({ state with context_chunks := docs.map Doc.page_content }, true)

/-- The literal prompt text of `generate_answer_node`
(langgraph_workflows.py lines 103-113), around the `{context}` hole. -/
def qaPromptPre : List Char :=
  ("\n        Based on the following lecture transcript, please answer the user\x27s question comprehensively.\n        Use the provided context to give a detailed and accurate answer.\n        \n        Context:\n        ").data

/-- Prompt text between the `{context}` and `{state.question}` holes. -/
def qaPromptMid : List Char := ("\n        \n        User Question: ").data

/-- Prompt text after the `{state.question}` hole. -/
def qaPromptPost : List Char :=
  ("\n        \n        Please provide a comprehensive answer based on the lecture content above:\n        ").data

/-- The full QA prompt f-string. -/
def qaPrompt (context question : List Char) : List Char :=
  qaPromptPre ++ context ++ qaPromptMid ++ question ++ qaPromptPost

/-- The context expression of `generate_answer_node` (line 101):
`"\n\n".join(state.context_chunks) if state.context_chunks else state.transcript or ""`. -/
def qaContext (state : LectureProcessingState) : List Char :=
  if state.context_chunks.isEmpty then state.transcript.getD []
  else joinSep "\n\n".data state.context_chunks

/-- `generate_answer_node` (langgraph_workflows.py lines 91-120). The
`Bool` records whether `llm.invoke` was invoked. -/
def generate_answer_node (env : Backends) (state : LectureProcessingState) :
    LectureProcessingState × Bool :=
  if optFalsy state.question then
    ({ state with error := some "No question provided".data }, false)
  else
    let response := env.llm (qaPrompt (qaContext state) (state.question.getD []))
    ({ state with answer := some (pystrip response) }, true)

/-- The bidirectional containment test of the segment-matching loops
(langgraph_workflows.py line 135, line 181; rag.py line 52;
multi_lecture_search.py line 42):
`chunk.strip() in segment.text or segment.text.strip() in chunk`. -/
def segMatches (chunk : List Char) (seg : TimestampSegment) : Bool :=
  listContains seg.text (pystrip chunk) || listContains chunk (pystrip seg.text)

/-- The source dict built for a matched segment
(langgraph_workflows.py lines 136-143; rag.py lines 53-60). -/
def sourceOfSegment (seg : TimestampSegment) : SourceCitation :=
  { text := seg.text
    start_time := seg.start_time
    end_time := seg.end_time
    start_str := seg.start_str
    end_str := seg.end_str
    video_timestamp := format_timestamp_for_video seg.start_time }

/-- The `for chunk in chunks: for segment in segments: ... break` loop of
`extract_sources_node` (langgraph_workflows.py lines 132-145) and of
`ask_question` (rag.py lines 49-62): the first matching segment yields a
source; a chunk with no matching segment yields nothing (there is no
`else` fallback in these two loops). -/
def sourcesForChunks (segments : List TimestampSegment) (chunks : List (List Char)) :
    List SourceCitation :=
  chunks.filterMap (fun chunk => (segments.find? (segMatches chunk)).map sourceOfSegment)

/-- `extract_sources_node` (langgraph_workflows.py lines 123-151). Calls
no backend. -/
def extract_sources_node (state : LectureProcessingState) : LectureProcessingState :=
  if optFalsy state.transcript then state
  else
    let segments := parse_transcript_with_timestamps (state.transcript.getD [])
    { state with sources := sourcesForChunks segments state.context_chunks }

/-- The citation part of `ask_question` (rag.py lines 46-63): the same
match-or-drop loop as `extract_sources_node`, over the parsed
transcript. -/
def ask_question_sources (transcript : List Char) (relevant_chunks : List (List Char)) :
    List SourceCitation :=
  sourcesForChunks (parse_transcript_with_timestamps transcript) relevant_chunks

/-! ### `services/langgraph_workflows.py` — multi-lecture search -/

/-- The `for doc in docs: for segment in segments: ... break / else:` body
of `search_lecture_node` (langgraph_workflows.py lines 178-206): the first
matching segment yields a timestamped result; the `for`-`else` fallback
yields the empty-citation placeholder. -/
def resultOfDoc (lid : List Char) (segments : List TimestampSegment) (doc : Doc) : SearchResult :=
  match segments.find? (segMatches doc.page_content) with
  | some seg =>
    { lecture_id := lid
      text := doc.page_content
      start_time := seg.start_time
      end_time := seg.end_time
      start_str := seg.start_str
      end_str := seg.end_str
      video_timestamp := format_timestamp_for_video seg.start_time
      relevance_score := doc.score }
  | none =>
    { lecture_id := lid
      text := doc.page_content
      start_time := 0
      end_time := 0
      start_str := ("00:00:00.00").data
      end_str := ("00:00:00.00").data
      video_timestamp := ("0s").data
      relevance_score := doc.score }

/-- `search_lecture_node` (langgraph_workflows.py lines 154-210): empty
result list when the collection is missing or the transcript is falsy;
otherwise one result per retrieved document. The `except` branch
(returning `[]`) is unreachable in the total model. -/
def search_lecture_node (env : Backends) (query lid : List Char) : List SearchResult :=
  if env.collectionExists (collectionName lid) = false then []
  else
    let docs := env.similaritySearch (collectionName lid) query TOP_K
    if optFalsy (env.loadTranscript lid) then []
    else
      let segments := parse_transcript_with_timestamps ((env.loadTranscript lid).getD [])
      docs.map (resultOfDoc lid segments)

/-- The comparison realized by
`all_results.sort(key=lambda x: x.get("relevance_score", 0), reverse=True)`:
a stable sort placing higher scores first. Every result dict the code
builds carries the `relevance_score` key, so the key function reads the
field. `List.mergeSort` is stable, hence produces exactly the list
Python's stable sort produces. -/
def descBy (a b : SearchResult) : Bool :=
  decide (b.relevance_score ≤ a.relevance_score)

/-- `search_all_lectures_node` (langgraph_workflows.py lines 213-226):
pool per-lecture results, sort descending by score when the pool is
nonempty (the `any("relevance_score" in r ...)` guard is always true on a
nonempty pool since every built dict has the key), truncate to 20. -/
def search_all_lectures_node (env : Backends) (state : MultiLectureState) : MultiLectureState :=
  let all_results := (state.lecture_ids.map (search_lecture_node env state.query)).flatten
  let sorted := if all_results.isEmpty then all_results else all_results.mergeSort descBy
  { state with results := sorted.take 20 }

/-- `search_multiple_lectures` (multi_lecture_search.py lines 7-77): the
per-lecture loop body (lines 17-71) is the same collection-guard /
transcript-guard / matched-or-placeholder logic as `search_lecture_node`;
the pooled results are sorted the same way and truncated to `limit`. -/
def search_multiple_lectures (env : Backends) (query : List Char)
    (lecture_ids : List (List Char)) (limit : ℕ) : List SearchResult :=
  let all_results := (lecture_ids.map (search_lecture_node env query)).flatten
  let sorted := if all_results.isEmpty then all_results else all_results.mergeSort descBy
  sorted.take limit

/-- The per-result label of `consolidate_answer_node` (line 241):
`f"Lecture {result['lecture_id']} ({result['video_timestamp']}): {result['text']}"`. -/
def resultLabel (r : SearchResult) : List Char :=
  ("Lecture ").data ++ r.lecture_id ++ (" (").data ++ r.video_timestamp ++ ("): ").data ++ r.text

/-- The literal prompt text of `consolidate_answer_node`
(langgraph_workflows.py lines 245-254), around the `{state.query}` hole. -/
def consolidatePromptPre : List Char :=
  ("\n        Based on the following search results from multiple lectures, provide a comprehensive answer to the user\x27s query.\n        \n        Query: ").data

/-- Prompt text between the `{state.query}` and `{context}` holes. -/
def consolidatePromptMid : List Char := ("\n        \n        Search Results:\n        ").data

/-- Prompt text after the `{context}` hole. -/
def consolidatePromptPost : List Char :=
  ("\n        \n        Please provide a consolidated answer that synthesizes information from all relevant lectures:\n        ").data

/-- The full consolidation prompt f-string. -/
def consolidatePrompt (query context : List Char) : List Char :=
  consolidatePromptPre ++ query ++ consolidatePromptMid ++ context ++ consolidatePromptPost

/-- The fixed message `consolidate_answer_node` writes for an empty result
list (langgraph_workflows.py line 233). -/
def noRelevantInfoMsg : List Char :=
  ("No relevant information found across the lectures.").data

/-- `consolidate_answer_node` (langgraph_workflows.py lines 229-261). The
`Bool` records whether `llm.invoke` was invoked. -/
def consolidate_answer_node (env : Backends) (state : MultiLectureState) :
    MultiLectureState × Bool :=
  if state.results.isEmpty then
    ({ state with consolidated_answer := some noRelevantInfoMsg }, false)
  else
    let top_results := state.results.take 10
    let context := joinSep ("\n\n").data (top_results.map resultLabel)
    let response := env.llm (consolidatePrompt state.query context)
    ({ state with consolidated_answer := some (pystrip response) }, true)

/-! ### `api/routes/lectures.py` — `generate_chunked_summary` -/

/-- Scan for the last index `i` with `l[i] = c1` and `l[i+1] = c2`. -/
def rfind2Aux (c1 c2 : Char) : List Char → ℕ → ℤ → ℤ
  | a :: b :: rest, i, best =>
    rfind2Aux c1 c2 (b :: rest) (i + 1) (if a = c1 && b = c2 then (i : ℤ) else best)
  | _, _, best => best

/-- Python `s.rfind(c1c2)` for a two-character pattern: the highest index
at which the pattern occurs, `-1` if it does not occur. -/
def rfind2 (c1 c2 : Char) (l : List Char) : ℤ := rfind2Aux c1 c2 l 0 (-1)

/-- The window-end computation of the chunking loop
(lectures.py lines 45-60) for a non-final window: take 3500 characters,
look for the last sentence boundary (`. `, `? `, `! `), and shorten the
window to `start + break_point + 2` when
`break_point > start + 1000` — the chunk-relative index `break_point` is
compared against the absolute position `start + 1000`, exactly as in the
source. -/
def chunkEnd (t : List Char) (start : ℕ) : ℕ :=
  let chunk_text := (t.drop start).take 3500
  let last_period := rfind2 '.' ' ' chunk_text
  let last_question := rfind2 '?' ' ' chunk_text
  let last_exclamation := rfind2 '!' ' ' chunk_text
  let break_point := max last_period (max last_question last_exclamation)
  if break_point > (start : ℤ) + 1000 then start + break_point.toNat + 2 else start + 3500

/-- Every non-final iteration moves the window end at least 1003 past
`start`: the boundary branch requires `break_point > start + 1000`, the
hard-cutoff branch uses `start + 3500`. -/
theorem le_chunkEnd (t : List Char) (start : ℕ) : start + 1003 ≤ chunkEnd t start := by
  dsimp only [chunkEnd]
  split
  · next h => omega
  · omega

/-- The `while start < len(transcript)` chunking loop of
`generate_chunked_summary` (lectures.py lines 42-62): final short window
when fewer than 3500 characters remain (`break`), otherwise one window
ending at `chunkEnd` and the next start 500 characters before that end
(the overlap). Terminates because `chunkEnd t start - 500 ≥ start + 503`
(`le_chunkEnd`). -/
def chunkLoop (t : List Char) (start : ℕ) : List (List Char) :=
  if h : start < t.length then
    if t.length ≤ start + 3500 then [t.drop start]
    else (t.drop start).take (chunkEnd t start - start) :: chunkLoop t (chunkEnd t start - 500)
  else []
  termination_by t.length - start
  decreasing_by
    have := le_chunkEnd t start
    omega

/-- Literal text of the short-transcript prompt (lectures.py lines 29-35). -/
def shortSummaryPrompt (transcript : List Char) : List Char :=
  ("\n        Please provide a concise summary of the following lecture transcript:\n        \n        ").data ++
    transcript ++ ("\n        \n        Summary:\n        ").data

/-- Literal text of the per-chunk prompt (lectures.py lines 66-72), with
the `{i+1}` and `{len(chunks)}` holes. -/
def partSummaryPrompt (partNo total : ℕ) (chunk : List Char) : List Char :=
  ("\n        Please provide a concise summary of this part of a lecture transcript (Part ").data ++
    natDecDigits partNo ++ (" of ").data ++ natDecDigits total ++ ("):\n        \n        ").data ++
    chunk ++ ("\n        \n        Summary of this part:\n        ").data

/-- Literal text of the first combining prompt (lectures.py lines 80-86). -/
def combinePrompt (combined : List Char) : List Char :=
  ("\n        Please create a coherent, comprehensive summary from these partial summaries of a lecture:\n        \n        ").data ++
    combined ++ ("\n        \n        Final Summary:\n        ").data

/-- Literal text of the group re-summarization prompt
(lectures.py lines 96-102), with the `{i//group_size + 1}` hole. -/
def groupPrompt (sectionNo : ℕ) (group_text : List Char) : List Char :=
  ("\n            Please combine these partial summaries into a coherent summary (Section ").data ++
    natDecDigits sectionNo ++ ("):\n            \n            ").data ++
    group_text ++ ("\n            \n            Combined Summary:\n            ").data

/-- Literal text of the final prompt of the long branch
(lectures.py lines 106-112). Its hole is
`chr(10).join(chr(10).join(mid_summaries))`: the inner join produces a
string, and the outer join then interleaves a newline between every
single character of it — modelled faithfully with `List.intersperse`. -/
def finalSectionsPrompt (mid_summaries : List (List Char)) : List Char :=
  ("\n        Please create a final, comprehensive summary from these section summaries:\n        \n        ").data ++
    List.intersperse '\n' (joinSep ("\n").data mid_summaries) ++
    ("\n        \n        Final Summary:\n        ").data

/-- `generate_chunked_summary` (lectures.py lines 23-113). The `ℕ`
component counts the `llm.invoke` calls performed: one for a short
transcript; otherwise one per chunk plus either one final combining call,
or (when the concatenated partial summaries still exceed 4000 characters)
one call per group of 3 plus one final call. -/
def generate_chunked_summary (llm : List Char → List Char) (transcript : List Char) :
    List Char × ℕ :=
  if transcript.length ≤ 4000 then (pystrip (llm (shortSummaryPrompt transcript)), 1)
  else
    let chunks := chunkLoop transcript 0
    let chunk_summaries :=
      chunks.enum.map (fun p => pystrip (llm (partSummaryPrompt (p.1 + 1) chunks.length p.2)))
    let combined_chunks := joinSep ("\n\n").data chunk_summaries
    if combined_chunks.length ≤ 4000 then
      (pystrip (llm (combinePrompt combined_chunks)), chunks.length + 1)
    else
      let groupStarts := pyrange 0 chunk_summaries.length 3
      let mid_summaries := groupStarts.map (fun i =>
        pystrip (llm (groupPrompt (i / 3 + 1) (joinSep ("\n\n").data ((chunk_summaries.drop i).take 3)))))
      (pystrip (llm (finalSectionsPrompt mid_summaries)), chunks.length + groupStarts.length + 1)

/-! ### Helper lemmas -/

/-- `parseLoop` appends the segments of the matching lines, in line order,
to the accumulator. -/
theorem parseLoop_eq_filterMap (lines : List (List Char)) (acc : List TimestampSegment) :
    parseLoop lines acc = acc ++ lines.filterMap (fun l => (matchLine l).map segOfMatch) := by
  induction lines generalizing acc with
  | nil => simp [parseLoop]
  | cons l ls ih =>
    simp only [parseLoop, List.filterMap_cons]
    cases h : matchLine l with
    | none => simp [ih]
    | some m => simp [ih]

/-- `parse_transcript_with_timestamps` is the filterMap of the per-line
matcher over the stripped, newline-split transcript. -/
theorem parse_eq_filterMap (transcript : List Char) :
    parse_transcript_with_timestamps transcript =
      (splitOnChar '\n' (pystrip transcript)).filterMap
        (fun l => (matchLine l).map segOfMatch) := by
  rw [parse_transcript_with_timestamps, parseLoop_eq_filterMap, List.nil_append]

/-! ### Claim C1 -/

/-- Claim C1 states that `seconds_to_time (time_to_seconds s) = s` for
every well-formed `HH:MM:SS.cc` string. Under the binary64 float
arithmetic the source actually uses, the round-trip fails: `29/100` is not
representable, `time_to_seconds "00:00:00.29"` is the double slightly
below `0.29`, and the truncation `int((secs - whole_seconds) * 100)` in
`seconds_to_time` then yields 28, so the round-trip returns
`"00:00:00.28"`. The algorithm is correct in exact arithmetic (the slip is
the truncating `int(...)` applied to a rounded product), so the claim is
the evident intent and the code diverges from it. -/
theorem claim_C1_float_divergence :
    seconds_to_time (time_to_seconds ("00:00:00.29").data) = ("00:00:00.28").data ∧
    ("00:00:00.28").data ≠ ("00:00:00.29").data := by
  constructor
  · decide
  · decide

/-! ### Claim C4 -/

/-- Claim C4: `parse_transcript_with_timestamps` maps each line matching
the `[HH:MM:SS.cc - HH:MM:SS.cc] text` pattern to exactly one segment in
input-line order and silently drops every non-matching line (this is the
`filterMap` of the per-line matcher); in particular the 3-line transcript
with the middle line `garbage` yields exactly the two segments of the
matching lines, in order. -/
theorem claim_C4_parse_behaviour :
    (∀ transcript : List Char,
      parse_transcript_with_timestamps transcript =
        (splitOnChar '\n' (pystrip transcript)).filterMap
          (fun l => (matchLine l).map segOfMatch)) ∧
    parse_transcript_with_timestamps
        ("[00:00:01.00 - 00:00:02.50] Hello\ngarbage\n[00:00:02.50 - 00:00:03.00] World").data =
      [{ start_time := Rat.divInt 1 1, end_time := Rat.divInt 5 2, text := ("Hello").data,
         start_str := ("00:00:01.00").data, end_str := ("00:00:02.50").data },
       { start_time := Rat.divInt 5 2, end_time := Rat.divInt 3 1, text := ("World").data,
         start_str := ("00:00:02.50").data, end_str := ("00:00:03.00").data }] :=
  ⟨parse_eq_filterMap, by decide⟩

/-! ### Claim C8 -/

/-- Claim C8 asserts `start_time ≤ end_time` for every parsed segment of
every transcript. The parser does not enforce this: a line whose start
timestamp exceeds its end timestamp is parsed as-is, refuting the
universal claim. -/
theorem claim_C8_counterexample :
    ¬ (∀ seg ∈ parse_transcript_with_timestamps
          ("[00:00:05.00 - 00:00:01.00] Reversed").data,
        seg.start_time ≤ seg.end_time) := by
  decide

/-- The per-line premise of the amended claim C8: if the line matches the
timestamp pattern, its start time (as converted by `time_to_seconds`) does
not exceed its end time. -/
def lineTimesOrdered (l : List Char) : Bool :=
  match matchLine l with
  | some m => qleB (time_to_seconds m.1) (time_to_seconds m.2.1)
  | none => true

/-- Claim C8, amended: the parser copies each matched line's two
timestamps into the segment unexamined, so `start_time ≤ end_time` holds
for every segment of a transcript in which every matching line has its
start timestamp ≤ its end timestamp (the parser preserves, but does not
enforce, the ordering invariant). -/
theorem claim_C8_amended (transcript : List Char)
    (h : ∀ l ∈ splitOnChar '\n' (pystrip transcript), lineTimesOrdered l = true) :
    ∀ seg ∈ parse_transcript_with_timestamps transcript,
      seg.start_time ≤ seg.end_time := by
  intro seg hseg
  rw [parse_eq_filterMap] at hseg
  rcases List.mem_filterMap.mp hseg with ⟨l, hl, hm⟩
  have hord := h l hl
  unfold lineTimesOrdered at hord
  cases hml : matchLine l with
  | none => rw [hml] at hm; simp at hm
  | some m =>
    rw [hml] at hm hord
    obtain rfl : segOfMatch m = seg := by simpa using hm
    exact (qleB_iff _ _).mp hord

/-- The unique segment of the ordered one-line transcript used to witness
the amended claim C8. -/
def c8seg : TimestampSegment :=
  { start_time := Rat.divInt 1 1
    end_time := Rat.divInt 2 1
    text := ("Hi").data
    start_str := ("00:00:01.00").data
    end_str := ("00:00:02.00").data }

/-- Witness for the amended claim C8 at a concrete ordered transcript. -/
theorem claim_C8_amended_witness : c8seg.start_time ≤ c8seg.end_time :=
  claim_C8_amended (("[00:00:01.00 - 00:00:02.00] Hi").data) (by decide) c8seg (by decide)

/-! ### Claim C9 -/

/-- Digit characters are not `':'`. -/
theorem charOfNat_digit_ne_colon (m : ℕ) (h : m < 10) : Char.ofNat (48 + m) ≠ ':' := by
  interval_cases m <;> decide

/-- No character produced by the digit expansion is `':'`. -/
theorem natDecDigitsAux_ne_colon (fuel : ℕ) :
    ∀ n, ∀ c ∈ natDecDigitsAux fuel n, c ≠ ':' := by
  induction fuel with
  | zero => intro n c hc; simp [natDecDigitsAux] at hc
  | succ f ih =>
    intro n c hc
    by_cases hn : n < 10
    · simp [natDecDigitsAux, hn] at hc
      subst hc
      exact charOfNat_digit_ne_colon n hn
    · simp only [natDecDigitsAux, if_neg hn, List.mem_append, List.mem_singleton] at hc
      rcases hc with hc | hc
      · exact ih _ c hc
      · subst hc
        exact charOfNat_digit_ne_colon _ (Nat.mod_lt _ (by omega))

/-- No decimal digit character of a natural number is `':'`. -/
theorem natDecDigits_ne_colon (n : ℕ) : ∀ c ∈ natDecDigits n, c ≠ ':' :=
  natDecDigitsAux_ne_colon _ _

/-- The digit expansion is never empty. -/
theorem natDecDigits_length_pos (n : ℕ) : 1 ≤ (natDecDigits n).length := by
  rw [natDecDigits, natDecDigitsAux]
  split <;> simp

/-- No character of `f"{z:02d}"` is `':'`. -/
theorem fmt02d_ne_colon (z : ℤ) : ∀ c ∈ fmt02d z, c ≠ ':' := by
  intro c hc
  have hbase : ∀ d ∈ (if z < 0 then '-' :: natDecDigits z.natAbs else natDecDigits z.natAbs),
      d ≠ ':' := by
    intro d hd
    split at hd
    · rcases List.mem_cons.mp hd with rfl | hd
      · decide
      · exact natDecDigits_ne_colon _ d hd
    · exact natDecDigits_ne_colon _ d hd
  rw [fmt02d, padTwo] at hc
  set s := (if z < 0 then '-' :: natDecDigits z.natAbs else natDecDigits z.natAbs) with hs
  split at hc
  · rcases List.mem_cons.mp hc with rfl | hc
    · decide
    · exact hbase c hc
  · exact hbase c hc

/-- `f"{z:02d}"` has at least two characters. -/
theorem fmt02d_length (z : ℤ) : 2 ≤ (fmt02d z).length := by
  rw [fmt02d, padTwo]
  set s := (if z < 0 then '-' :: natDecDigits z.natAbs else natDecDigits z.natAbs) with hs
  have h1 : 1 ≤ s.length := by
    rw [hs]
    split
    · simp
    · exact natDecDigits_length_pos _
  split
  · simp only [List.length_cons]
    omega
  · rename_i h2
    omega

/-- No character of the `.2f`-formatted time is `':'`. -/
theorem fmt2f_ne_colon (cs : ℕ) : ∀ c ∈ fmt2f cs, c ≠ ':' := by
  intro c hc
  rw [fmt2f] at hc
  rcases List.mem_append.mp hc with hc | hc
  · exact natDecDigits_ne_colon _ c hc
  · rcases List.mem_cons.mp hc with rfl | hc
    · decide
    · exact fmt02d_ne_colon _ c hc

/-- The `.2f`-formatted time has at least four characters. -/
theorem fmt2f_length (cs : ℕ) : 4 ≤ (fmt2f cs).length := by
  rw [fmt2f]
  have h1 := natDecDigits_length_pos (cs / 100)
  have h2 := fmt02d_length ((cs % 100 : ℕ) : ℤ)
  simp only [List.length_append, List.length_cons]
  omega

/-- A line accepted by the timestamp pattern contains `':'` (at its third
position). -/
theorem isTimePattern_colon (l : List Char) (h : isTimePattern l = true) : ':' ∈ l := by
  unfold isTimePattern at h
  split at h
  · rename_i a b c d e f g h8 i j k
    simp only [Bool.and_eq_true, decide_eq_true_eq] at h
    obtain ⟨⟨⟨⟨⟨⟨⟨⟨⟨⟨_, _⟩, hc⟩, _⟩, _⟩, _⟩, _⟩, _⟩, _⟩, _⟩, _⟩ := h
    subst hc
    simp
  · exact absurd h (by simp)

/-- The per-line matcher rejects every line whose characters at offsets
1..11 contain no `':'`. -/
theorem matchLine_none_of_no_colon (line : List Char)
    (h11 : ∀ c ∈ (line.drop 1).take 11, c ≠ ':') : matchLine line = none := by
  unfold matchLine
  split
  · rename_i rest
    have hfalse : ¬ (isTimePattern (rest.take 11) = true) := by
      intro hpat
      have hmem := isTimePattern_colon _ hpat
      exact h11 ':' (by simpa using hmem) rfl
    rw [if_neg hfalse]
  · rfl

/-- Claim C9 asserts that the parser accepts the line format `transcribe`
serializes. It does not: `transcribe` writes times as plain seconds with
two decimals (`[0.00 - 2.50] text`), which contain no `':'` among the
eleven characters the pattern requires to be `HH:MM:SS.cc`, so the
matcher rejects every serialized line and the parser yields no segment at
all — refuting the one-segment-per-line claim at every line. -/
theorem claim_C9_serialization_mismatch :
    (∀ (startCs endCs : ℕ) (text : List Char),
        matchLine (transcribeLine startCs endCs text) = none) ∧
    transcribeLine 0 250 ("Hello").data = ("[0.00 - 2.50] Hello").data ∧
    parse_transcript_with_timestamps ("[0.00 - 2.50] Hello").data = [] := by
  refine ⟨?_, by decide, by decide⟩
  intro s e text
  apply matchLine_none_of_no_colon
  intro c hc hcolon
  subst hcolon
  have hline : (transcribeLine s e text).drop 1 =
      (fmt2f s ++ ' ' :: '-' :: ' ' :: (fmt2f e ++ [']', ' '])) ++ text := by
    simp [transcribeLine]
  have hlen : 11 ≤ (fmt2f s ++ ' ' :: '-' :: ' ' :: (fmt2f e ++ [']', ' '])).length := by
    have h1 := fmt2f_length s
    have h2 := fmt2f_length e
    simp only [List.length_append, List.length_cons]
    omega
  rw [hline, List.take_append_of_le_length hlen] at hc
  have hc2 := List.take_subset _ _ hc
  simp only [List.mem_append, List.mem_cons, List.mem_singleton] at hc2
  rcases hc2 with hc2 | hc2 | hc2 | hc2 | hc2 | hc2 | hc2
  · exact fmt2f_ne_colon s _ hc2 rfl
  all_goals first
    | exact absurd hc2 (by decide)
    | exact fmt2f_ne_colon e _ hc2 rfl

/-! ### Claim C2 -/

/-- A QA state whose single context chunk matches no transcript segment. -/
def c2qaState : LectureProcessingState :=
  { lecture_id := ("L").data
    transcript := some (("[00:00:01.00 - 00:00:02.00] Hello").data)
    question := some (("q").data)
    context_chunks := [("zzz").data]
    answer := none
    sources := []
    error := none }

/-- Claim C2 asserts one citation entry per input chunk (matched or
placeholder) in `extract_sources_node`, the `ask_question` fallback, and
multi-lecture search. Refuted for the first two: their loops have no
`for`-`else` placeholder branch, so a chunk matching no segment
contributes nothing and the source list comes out shorter than the chunk
list. -/
theorem claim_C2_counterexample :
    (extract_sources_node c2qaState).sources.length = 0 ∧
    (ask_question_sources (("[00:00:01.00 - 00:00:02.00] Hello").data)
        [("zzz").data]).length = 0 ∧
    c2qaState.context_chunks.length = 1 := by
  decide

/-- Claim C2, amended: only the multi-lecture search paths
(`search_lecture_node`, `search_multiple_lectures`) emit exactly one
result per retrieved document (matched or the empty placeholder);
`extract_sources_node` and the `ask_question` fallback emit at most one
citation per chunk and drop chunks with no matching segment. -/
theorem claim_C2_amended :
    (∀ (env : Backends) (query lid : List Char),
      env.collectionExists (collectionName lid) = true →
      optFalsy (env.loadTranscript lid) = false →
      (search_lecture_node env query lid).length =
        (env.similaritySearch (collectionName lid) query TOP_K).length) ∧
    (∀ (segments : List TimestampSegment) (chunks : List (List Char)),
      (sourcesForChunks segments chunks).length ≤ chunks.length) := by
  constructor
  · intro env q lid h1 h2
    simp [search_lecture_node, h1, h2]
  · intro segs chunks
    simpa [sourcesForChunks] using
      List.length_filterMap_le
        (fun chunk => (segs.find? (segMatches chunk)).map sourceOfSegment) chunks

/-- A backend oracle with one indexed lecture whose single retrieved
document matches no segment. -/
def c2env : Backends :=
  { collectionExists := fun _ => true
    similaritySearch := fun _ _ _ => [{ page_content := ("zzz").data, score := Rat.divInt 9 10 }]
    loadTranscript := fun _ => some (("[00:00:01.00 - 00:00:02.00] Hello").data)
    llm := fun _ => [] }

/-- Witness for the amended claim C2: the multi-lecture path emits exactly
one (placeholder) result for the one retrieved document. -/
theorem claim_C2_amended_witness :
    (search_lecture_node c2env ("q").data ("A").data).length =
      (c2env.similaritySearch (collectionName ("A").data) ("q").data TOP_K).length :=
  claim_C2_amended.1 c2env (("q").data) (("A").data) rfl rfl

/-! ### Claim C3 -/

/-- A backend oracle whose generation backend returns a fixed answer. -/
def c3env : Backends :=
  { collectionExists := fun _ => false
    similaritySearch := fun _ _ _ => []
    loadTranscript := fun _ => none
    llm := fun _ => ("ANSWER").data }

/-- A QA state on which an earlier stage has already recorded an error,
while transcript and question are both present. -/
def c3state : LectureProcessingState :=
  { lecture_id := ("L").data
    transcript := some (("[00:00:01.00 - 00:00:02.00] Hello").data)
    question := some (("What").data)
    context_chunks := []
    answer := none
    sources := []
    error := some (("Error retrieving chunks: boom").data) }

/-- Claim C3 asserts that once `error` is set, every later stage passes
the state through unchanged and calls no backend. Refuted:
`generate_answer_node` never inspects `error` — with a question present it
invokes the generation backend and overwrites `answer` even on an errored
state. -/
theorem claim_C3_counterexample :
    (generate_answer_node c3env c3state).2 = true ∧
    (generate_answer_node c3env c3state).1 ≠ c3state := by
  constructor
  · rfl
  · decide

/-- Claim C3, amended: the stages gate on the presence of their input
fields, not on `error`. On an errored state, `extract_sources_node` is a
pass-through exactly when the transcript is absent or empty, while
`generate_answer_node` with a non-empty question still invokes the
generation backend and overwrites `answer` (leaving `error` as it was),
and `retrieve_relevant_chunks` with a non-empty question and an existing
collection still invokes the retrieval backend. -/
theorem claim_C3_amended (env : Backends) (st : LectureProcessingState)
    (herr : st.error ≠ none) :
    (optFalsy st.transcript = true → extract_sources_node st = st) ∧
    (optFalsy st.question = false →
      (generate_answer_node env st).2 = true ∧
      (generate_answer_node env st).1.error = st.error ∧
      (generate_answer_node env st).1.answer =
        some (pystrip (env.llm (qaPrompt (qaContext st) (st.question.getD []))))) ∧
    (optFalsy st.question = false →
      env.collectionExists (collectionName st.lecture_id) = true →
      (retrieve_relevant_chunks env st).2 = true) := by
  refine ⟨?_, ?_, ?_⟩
  · intro h
    simp [extract_sources_node, h]
  · intro h
    simp [generate_answer_node, h]
  · intro h hc
    simp [retrieve_relevant_chunks, h, hc]

/-- An errored state with no transcript and a present question. -/
def c3passState : LectureProcessingState :=
  { lecture_id := ("L").data
    transcript := none
    question := some (("What").data)
    context_chunks := []
    answer := none
    sources := []
    error := some (("boom").data) }

/-- Witness for the amended claim C3 at a concrete errored state. -/
theorem claim_C3_amended_witness :
    extract_sources_node c3passState = c3passState ∧
    (generate_answer_node c3env c3passState).2 = true :=
  ⟨(claim_C3_amended c3env c3passState (by decide)).1 rfl,
   ((claim_C3_amended c3env c3passState (by decide)).2.1 rfl).1⟩

/-! ### Claim C6 -/

/-- Claim C6: when the lecture's collection does not exist (and question
and transcript are present), the QA retrieval stage fills
`context_chunks` with windows of size 1000 taken at stride 2000 from the
raw transcript, capped at 5 windows; it invokes no vector search and sets
no error. -/
theorem claim_C6_retrieval_fallback (env : Backends) (st : LectureProcessingState)
    (hq : optFalsy st.question = false)
    (hc : env.collectionExists (collectionName st.lecture_id) = false)
    (ht : optFalsy st.transcript = false) :
    (retrieve_relevant_chunks env st).1.context_chunks =
      (List.range (min 5 (((st.transcript.getD []).length + 1999) / 2000))).map
        (fun k => ((st.transcript.getD []).drop (k * 2000)).take 1000) ∧
    (retrieve_relevant_chunks env st).1.error = st.error ∧
    (retrieve_relevant_chunks env st).2 = false ∧
    (retrieve_relevant_chunks env st).1.context_chunks.length ≤ 5 := by
  have hfb : ∀ u : List Char, fallback_chunks u =
      (List.range (min 5 ((u.length + 1999) / 2000))).map
        (fun k => (u.drop (k * 2000)).take 1000) := by
    intro u
    rw [fallback_chunks, pyrange, List.map_map, ← List.map_take, List.take_range]
    apply List.map_congr_left
    intro k _
    simp [Function.comp]
  have hnode : retrieve_relevant_chunks env st =
      ({ st with context_chunks := fallback_chunks (st.transcript.getD []) }, false) := by
    simp [retrieve_relevant_chunks, hq, hc, ht]
  rw [hnode]
  refine ⟨hfb _, rfl, rfl, ?_⟩
  simp [hfb]

/-- A backend oracle with no data at all. -/
def emptyBackends : Backends :=
  { collectionExists := fun _ => false
    similaritySearch := fun _ _ _ => []
    loadTranscript := fun _ => none
    llm := fun _ => [] }

/-- A QA state with a short transcript and no indexed collection. -/
def c6state : LectureProcessingState :=
  { lecture_id := ("L").data
    transcript := some (("short transcript").data)
    question := some (("q").data)
    context_chunks := []
    answer := none
    sources := []
    error := none }

/-- Witness for claim C6 at a concrete un-indexed lecture. -/
theorem claim_C6_witness :
    (retrieve_relevant_chunks emptyBackends c6state).1.error = c6state.error ∧
    (retrieve_relevant_chunks emptyBackends c6state).2 = false ∧
    (retrieve_relevant_chunks emptyBackends c6state).1.context_chunks.length ≤ 5 :=
  ⟨(claim_C6_retrieval_fallback emptyBackends c6state rfl rfl rfl).2.1,
   (claim_C6_retrieval_fallback emptyBackends c6state rfl rfl rfl).2.2.1,
   (claim_C6_retrieval_fallback emptyBackends c6state rfl rfl rfl).2.2.2⟩

/-! ### Claim C7 -/

/-- Claim C7: with an empty result list, `consolidate_answer_node` writes
the fixed no-relevant-information message and does not invoke the
generation backend; the backend is invoked exactly when at least one
result is present. -/
theorem claim_C7_consolidate (env : Backends) (st : MultiLectureState) :
    (st.results = [] →
      (consolidate_answer_node env st).1.consolidated_answer = some noRelevantInfoMsg ∧
      (consolidate_answer_node env st).1.error = st.error ∧
      (consolidate_answer_node env st).2 = false) ∧
    (st.results ≠ [] → (consolidate_answer_node env st).2 = true) := by
  constructor
  · intro h
    simp [consolidate_answer_node, h]
  · intro h
    cases hres : st.results with
    | nil => exact absurd hres h
    | cons a as => simp [consolidate_answer_node, hres]

/-- A multi-lecture state with no results. -/
def c7state : MultiLectureState :=
  { query := ("q").data
    lecture_ids := []
    results := []
    consolidated_answer := none
    error := none }

/-- Witness for claim C7 at a concrete empty-results state. -/
theorem claim_C7_witness :
    (consolidate_answer_node emptyBackends c7state).1.consolidated_answer =
      some noRelevantInfoMsg ∧
    (consolidate_answer_node emptyBackends c7state).2 = false :=
  ⟨((claim_C7_consolidate emptyBackends c7state).1 rfl).1,
   ((claim_C7_consolidate emptyBackends c7state).1 rfl).2.2⟩

/-! ### Claim C5 -/

/-- `descBy` is transitive. -/
theorem descBy_trans : ∀ a b c : SearchResult, descBy a b → descBy b c → descBy a c := by
  intro a b c h1 h2
  simp only [descBy, decide_eq_true_eq] at h1 h2 ⊢
  exact le_trans h2 h1

/-- `descBy` is total. -/
theorem descBy_total : ∀ a b : SearchResult, descBy a b || descBy b a := by
  intro a b
  simp only [descBy, Bool.or_eq_true, decide_eq_true_eq]
  exact le_total _ _

/-- Claim C5: `search_all_lectures_node` pools per-lecture results
(lectures whose collection is missing contribute the empty list, and no
error is ever set), sorts the pool by descending relevance score — the
stable `mergeSort` below produces exactly the list Python's stable
`sort(key=..., reverse=True)` produces — and truncates to 20. The
pairwise-descending conclusion gives in particular that every result with
score 0.9 precedes every result with score 0.7. -/
theorem claim_C5_multi_ranking (env : Backends) (st : MultiLectureState) :
    ((search_all_lectures_node env st).results.Pairwise
        (fun a b => b.relevance_score ≤ a.relevance_score)) ∧
    (search_all_lectures_node env st).results.length ≤ 20 ∧
    (search_all_lectures_node env st).error = st.error ∧
    (search_all_lectures_node env st).results =
      (((st.lecture_ids.map (search_lecture_node env st.query)).flatten).mergeSort
        descBy).take 20 ∧
    (∀ lid, env.collectionExists (collectionName lid) = false →
      search_lecture_node env st.query lid = []) := by
  have hsort : ∀ (l : List SearchResult),
      (if l.isEmpty then l else l.mergeSort descBy) = l.mergeSort descBy := by
    intro l
    cases l with
    | nil => simp
    | cons a as => simp [List.isEmpty]
  have hres : (search_all_lectures_node env st).results =
      (((st.lecture_ids.map (search_lecture_node env st.query)).flatten).mergeSort
        descBy).take 20 := by
    simp only [search_all_lectures_node]
    rw [hsort]
  refine ⟨?_, ?_, ?_, hres, ?_⟩
  · rw [hres]
    have hs := List.sorted_mergeSort descBy_trans descBy_total
      ((st.lecture_ids.map (search_lecture_node env st.query)).flatten)
    have hs2 := List.Pairwise.sublist (List.take_sublist 20 _) hs
    exact hs2.imp (fun h => by simpa [descBy, decide_eq_true_eq] using h)
  · rw [hres]
    exact List.length_take_le _ _
  · simp [search_all_lectures_node]
  · intro lid h
    simp [search_lecture_node, h]

/-- A backend oracle with two indexed lectures `A` (retrieved score 0.9)
and `B` (retrieved score 0.7), and no other collection. -/
def c5env : Backends :=
  { collectionExists := fun n =>
      decide (n = ("lecture_A").data) || decide (n = ("lecture_B").data)
    similaritySearch := fun n _ _ =>
      if n = ("lecture_A").data then [{ page_content := ("docA").data, score := Rat.divInt 9 10 }]
      else [{ page_content := ("docB").data, score := Rat.divInt 7 10 }]
    loadTranscript := fun _ => some (("[00:00:01.00 - 00:00:02.00] Hello").data)
    llm := fun _ => [] }

/-- A multi-lecture search state over lectures `A` and `B`. -/
def c5state : MultiLectureState :=
  { query := ("q").data
    lecture_ids := [("A").data, ("B").data]
    results := []
    consolidated_answer := none
    error := none }

/-- Witness for claim C5 at a concrete two-lecture search. -/
theorem claim_C5_witness :
    (search_all_lectures_node c5env c5state).error = c5state.error ∧
    search_lecture_node c5env c5state.query ("C").data = [] :=
  ⟨(claim_C5_multi_ranking c5env c5state).2.2.1,
   (claim_C5_multi_ranking c5env c5state).2.2.2.2 (("C").data) (by decide)⟩

/-! ### Claim C10 -/

/-- Each chunk of the chunking loop advances the measure: the loop
produces at most one chunk per 503 characters (plus one final chunk). -/
theorem chunkLoop_length_bound (t : List Char) (start : ℕ) :
    (chunkLoop t start).length * 503 ≤ (t.length - start) + 503 := by
  induction start using chunkLoop.induct t with
  | case1 start h h2 =>
    rw [chunkLoop, dif_pos h, if_pos h2]
    simp only [List.length_cons, List.length_nil]
    omega
  | case2 start h h2 ih =>
    rw [chunkLoop, dif_pos h, if_neg h2]
    have hce := le_chunkEnd t start
    simp only [List.length_cons]
    omega
  | case3 start h =>
    rw [chunkLoop, dif_neg h]
    simp

/-- Claim C10: the map-reduce summary generator is a bounded,
deterministic hierarchy. The boundary-seeking chunking loop strictly
advances its window start by at least 503 positions per iteration, so a
transcript of `n` characters yields at most `n / 503 + 1` chunks; and the
number of generation-backend passes is exactly one of: 1 (short
transcript), one per chunk plus one final combining pass, or one per
chunk plus one per group of three plus one final pass — never unbounded
recursion. -/
theorem claim_C10_summary_passes (llm : List Char → List Char) (t : List Char) :
    (∀ start, start + 503 ≤ chunkEnd t start - 500) ∧
    (chunkLoop t 0).length * 503 ≤ t.length + 503 ∧
    ((generate_chunked_summary llm t).2 = 1 ∨
      (generate_chunked_summary llm t).2 = (chunkLoop t 0).length + 1 ∨
      (generate_chunked_summary llm t).2 =
        (chunkLoop t 0).length + ((chunkLoop t 0).length + 2) / 3 + 1) := by
  refine ⟨?_, ?_, ?_⟩
  · intro start
    have := le_chunkEnd t start
    omega
  · simpa using chunkLoop_length_bound t 0
  · unfold generate_chunked_summary
    split
    · exact Or.inl rfl
    · dsimp only
      split
      · exact Or.inr (Or.inl (by simp))
      · refine Or.inr (Or.inr ?_)
        simp [pyrange]

end TutorAI

